import Mathlib

/-!
# Verification of the XAU/USD trading-bot simulation engine

Shallow embedding, over `ℚ`, of the parts of the repository that the
specification's claims are about:

* `src/src/risk_management/position_sizer.py` — `PositionSizer.calculate_position_size`
* `src/src/strategy/realistic_backtester.py` — `RealisticBacktester` (costs, bar loop,
  stop-out, metrics)
* `src/src/strategy/trend_following_strategy.py` — `TrendFollowingStrategy.backtest`
* `src/src/strategy/working_strategy.py` — `WorkingStrategy.backtest`
* `src/scripts/prop_firm_challenge.py` — `PropFirmChallenge.run_challenge`
* `src/scripts/live_signals.py` — `LiveSignalGenerator.get_signal`

Modelling conventions, used uniformly below:

* Python floats become `ℚ`.  A value that can be `NaN` in the source (a missing
  indicator) becomes `Option ℚ` with `none` for `NaN`; the source's `pd.isna`
  guards become `match`es on the option.
* A Python float division that can raise `ZeroDivisionError` is embedded as
  `Except String _` when a claim depends on that behaviour (the position sizer);
  elsewhere the inputs under consideration keep divisors nonzero.
* `np.random.uniform(0.5, 1.5)` draws (slippage in the realistic backtester) are
  modelled as an explicit stream of draws, `List ℚ`, threaded through the state:
  each call to the cost routine consumes the head of the stream (an exhausted
  stream yields the distribution mean `1`).  The program's hidden global RNG
  state is thereby made an explicit input.
* Pandas timestamps become bar indices `ℕ`; per-bar dataframe rows become
  structures whose fields are the columns the embedded code reads.  Indicator
  columns (ATR, EMAs, RSI, crossover flags) and signal series are inputs: the
  specification treats indicator computation as an external `IndicatorFeed`.
* Python's `round` (banker's rounding, half to even) is `pyRound` below.
-/

/-- Python's built-in `round` on a rational: nearest integer, ties to even. -/
def pyRound (x : ℚ) : ℤ :=
  let f := ⌊x⌋
  let r := x - (f : ℚ)
  if r < 1/2 then f
  else if 1/2 < r then f + 1
  else if Even f then f else f + 1

/-- Python's `round(x, 2)` on a rational. -/
def pyRound2 (x : ℚ) : ℚ :=
  (pyRound (x * 100) : ℚ) / 100

/-! ## PositionSizer (`src/src/risk_management/position_sizer.py`) -/

/-- Constructor parameters of `PositionSizer`. -/
structure SizerConfig where
  max_risk_per_trade : ℚ
  max_position_size : ℚ
  atr_multiplier : ℚ
deriving Repr, DecidableEq

/-- The `PositionSize` dataclass. -/
structure PositionSize where
  units : ℚ
  risk_amount : ℚ
  stop_loss_price : ℚ
  take_profit_price : Option ℚ
  entry_price : Option ℚ
deriving Repr, DecidableEq

/-- `PositionSizer.calculate_position_size` (position_sizer.py lines 34-73).
A division whose divisor is zero raises `ZeroDivisionError` in Python; the
`try/except` block at lines 51-73 logs and re-raises, so the error escapes the
call.  That is embedded as `Except.error "ZeroDivisionError"`. -/
def calculate_position_size (cfg : SizerConfig) (capital entry_price stop_loss_price : ℚ)
    (take_profit_price : Option ℚ) : Except String PositionSize :=
  let risk_amount := capital * cfg.max_risk_per_trade
  let price_risk := |entry_price - stop_loss_price|
  if price_risk = 0 then Except.error "ZeroDivisionError"
  else
    let units := risk_amount / price_risk
    if entry_price = 0 then Except.error "ZeroDivisionError"
    else
      let max_units := (capital * cfg.max_position_size) / entry_price
      let units := min units max_units
      Except.ok ⟨units, risk_amount, stop_loss_price, take_profit_price, some entry_price⟩

/-- `PositionSizer.calculate_stop_loss` (lines 75-95). `side` is the string
argument; anything other than `"long"` (after lowercasing) takes the short branch. -/
def calculate_stop_loss (cfg : SizerConfig) (entry_price atr : ℚ) (side : String) : ℚ :=
  let stop_distance := atr * cfg.atr_multiplier
  if side = "long" then entry_price - stop_distance
  else entry_price + stop_distance

/-! ## Profit-factor calculators (claim C9)

Values of the profit-factor metric: Python's `float('inf')` needs a point that
`ℚ` does not have. -/

/-- A metric value that may be `float('inf')`. -/
inductive PFValue where
  | fin (q : ℚ)
  | posInf
deriving Repr, DecidableEq

/-- Gross profit of a list of per-trade net P&L values: sum of the positive entries
(`winning_trades['net_pnl'].sum()`). -/
def grossProfit (pnls : List ℚ) : ℚ :=
  ((pnls.filter fun p => 0 < p).foldl (· + ·) 0)

/-- Gross loss: absolute value of the sum of the negative entries
(`abs(losing_trades['net_pnl'].sum())`). -/
def grossLoss (pnls : List ℚ) : ℚ :=
  |((pnls.filter fun p => p < 0).foldl (· + ·) 0)|

/-- `RealisticBacktester._calculate_metrics`, profit-factor logic
(realistic_backtester.py lines 376-423): with no trades the early return gives
`0`; otherwise `gross_profit / gross_loss if gross_loss > 0 else float('inf')`. -/
def profitFactorRB (pnls : List ℚ) : PFValue :=
  if pnls = [] then .fin 0
  else if 0 < grossLoss pnls then .fin (grossProfit pnls / grossLoss pnls)
  else .posInf

/-- `TrendFollowingStrategy._calculate_metrics`, profit-factor logic
(trend_following_strategy.py lines 281-306; `WorkingStrategy` lines 301-326 are
identical): no trades give the initialised `0`; otherwise
`gp/gl if gl > 0 else (inf if gp > 0 else 0)`. -/
def profitFactorTF (pnls : List ℚ) : PFValue :=
  if pnls = [] then .fin 0
  else if 0 < grossLoss pnls then .fin (grossProfit pnls / grossLoss pnls)
  else if 0 < grossProfit pnls then .posInf
  else .fin 0

/-- `BaseStrategy._calculate_performance_metrics` profit-factor logic
(base_strategy.py lines 144-147), over the per-period capital differences:
`gp/gl if gl > 0 else float('inf') if gp > 0 else 0`. -/
def profitFactorBase (period_returns : List ℚ) : PFValue :=
  if 0 < grossLoss period_returns then
    .fin (grossProfit period_returns / grossLoss period_returns)
  else if 0 < grossProfit period_returns then .posInf
  else .fin 0

/-- The profit-factor policy as the specification words it (§4.6): `gp/gl` when
`gl > 0`, `+∞` when `gl = 0` and `gp > 0`, else `0` (no trades, or `gl = 0` with
`gp = 0`).  Used only to compare the source calculators against the spec. -/
def profitFactorSpec (pnls : List ℚ) : PFValue :=
  if 0 < grossLoss pnls then .fin (grossProfit pnls / grossLoss pnls)
  else if 0 < grossProfit pnls then .posInf
  else .fin 0

/-! ## RealisticBacktester (`src/src/strategy/realistic_backtester.py`) -/

/-- Constructor parameters of `RealisticBacktester` (lines 44-82).
`spread_dollars` and `slippage_dollars` are derived fields, defined below. -/
structure RBConfig where
  spread_pips : ℚ
  commission_per_lot : ℚ
  slippage_pips : ℚ
  initial_capital : ℚ
  leverage : ℚ
  min_lot_size : ℚ
  lot_size_units : ℚ
  margin_call_level : ℚ
  stop_out_level : ℚ
deriving Repr, DecidableEq

/-- `self.spread_dollars = spread_pips * 0.01` (line 72). -/
def RBConfig.spread_dollars (cfg : RBConfig) : ℚ := cfg.spread_pips * (1/100)

/-- `self.slippage_dollars = slippage_pips * 0.01` (line 75). -/
def RBConfig.slippage_dollars (cfg : RBConfig) : ℚ := cfg.slippage_pips * (1/100)

/-- The constructor defaults (lines 46-56). -/
def rbDefaults : RBConfig :=
  { spread_pips := 30, commission_per_lot := 7, slippage_pips := 5
    initial_capital := 10000, leverage := 100, min_lot_size := 1/100
    lot_size_units := 100, margin_call_level := 1/2, stop_out_level := 1/5 }

/-- One row of the input dataframe together with the strategy signal for that
bar (`signals.iloc[i]`, read at line 151) — the signal series is an input, the
strategy's `generate_signals` being out of scope (external `SignalGenerator`).
`atr` is `none` when the dataframe has no (or a NaN) `atr` value, in which case
line 154 substitutes `close * 0.01`. -/
structure RBBar where
  close : ℚ
  high : ℚ
  low : ℚ
  atr : Option ℚ
  signal : ℤ
deriving Repr, DecidableEq

/-- The `TradeResult` dataclass (lines 23-36), with dates as bar indices. -/
structure RBTrade where
  entry_date : ℕ
  exit_date : ℕ
  side : String
  entry_price : ℚ
  exit_price : ℚ
  position_size : ℚ
  gross_pnl : ℚ
  spread_cost : ℚ
  commission : ℚ
  slippage : ℚ
  net_pnl : ℚ
  exit_reason : String
deriving Repr, DecidableEq

/-- The mutable locals of `run_backtest` (lines 136-144) plus the two instance
lists and the modelled slippage-draw stream. -/
structure RBState where
  capital : ℚ
  position : ℚ
  entry_price : ℚ
  entry_date : ℕ
  stop_loss : ℚ
  take_profit : ℚ
  equity_curve : List ℚ
  trades : List RBTrade
  rng : List ℚ
deriving Repr, DecidableEq

/-- Pop the next `np.random.uniform(0.5, 1.5)` draw off the modelled stream;
an exhausted stream yields the mean draw `1`. -/
def rbDraw : List ℚ → ℚ × List ℚ
  | [] => (1, [])
  | u :: rest => (u, rest)

/-- `calculate_required_margin` (lines 87-90). -/
def calculate_required_margin (cfg : RBConfig) (position_size price : ℚ) : ℚ :=
  |position_size| * price / cfg.leverage

/-- `calculate_lot_size` (lines 92-94). -/
def calculate_lot_size (cfg : RBConfig) (units : ℚ) : ℚ :=
  units / cfg.lot_size_units

/-- The cost breakdown returned by `calculate_transaction_costs`. -/
structure RBCosts where
  spread_cost : ℚ
  commission : ℚ
  slippage : ℚ
  total : ℚ
deriving Repr, DecidableEq

/-- `calculate_transaction_costs` (lines 96-120).  `u` is the
`np.random.uniform(0.5, 1.5)` draw of line 113, made explicit. -/
def calculate_transaction_costs (cfg : RBConfig) (position_size : ℚ) (is_entry : Bool)
    (u : ℚ) : RBCosts :=
  let lot_size := calculate_lot_size cfg |position_size|
  let spread_cost := if is_entry then |position_size| * cfg.spread_dollars else 0
  let commission := lot_size * (cfg.commission_per_lot / 2)
  let slippage := |position_size| * cfg.slippage_dollars * u
  ⟨spread_cost, commission, slippage, spread_cost + commission + slippage⟩

/-- The ATR actually used at a bar:
`data['atr'].iloc[i] if 'atr' in data.columns else current_price * 0.01` (line 154). -/
def RBBar.atrVal (b : RBBar) : ℚ :=
  match b.atr with
  | some a => a
  | none => b.close * (1/100)

/-- The stop-out condition checked at lines 157-164: a position is open and
`margin_level < stop_out_level`, where `margin_level = equity / margin_used`
when `margin_used > 0` and `float('inf')` otherwise (in which case the
comparison is false). -/
def rbStopOutFires (cfg : RBConfig) (s : RBState) (b : RBBar) : Prop :=
  s.position ≠ 0 ∧
    0 < calculate_required_margin cfg s.position b.close ∧
    (s.capital + (b.close - s.entry_price) * s.position) /
        calculate_required_margin cfg s.position b.close < cfg.stop_out_level

instance (cfg : RBConfig) (s : RBState) (b : RBBar) : Decidable (rbStopOutFires cfg s b) := by
  unfold rbStopOutFires; infer_instance

/-- The forced-liquidation branch (lines 164-188): exit costs at the current
price, capital updated by the net P&L, a `stop_out` trade appended, the position
zeroed, and `continue` — no equity-curve point, no entry processing. -/
def rbStopOutStep (cfg : RBConfig) (s : RBState) (i : ℕ) (b : RBBar) : RBState :=
  let unrealized := (b.close - s.entry_price) * s.position
  let d := rbDraw s.rng
  let exit_costs := calculate_transaction_costs cfg s.position false d.1
  let gross_pnl := unrealized
  let net_pnl := gross_pnl - exit_costs.total
  { s with
    capital := s.capital + net_pnl
    position := 0
    rng := d.2
    trades := s.trades ++ [{
      entry_date := s.entry_date, exit_date := i
      side := if 0 < s.position then "long" else "short"
      entry_price := s.entry_price, exit_price := b.close
      position_size := |s.position|
      gross_pnl := gross_pnl, spread_cost := 0
      commission := exit_costs.commission, slippage := exit_costs.slippage
      net_pnl := net_pnl, exit_reason := "stop_out" }] }

/-- Close the open position at `exit_price` with the given reason
(the common body of the four stop-loss / take-profit branches, lines 191-287).
Long trades record `position_size = position`, short ones `abs(position)`;
both equal `|position|`. -/
def rbCloseAt (cfg : RBConfig) (s : RBState) (i : ℕ) (exit_price : ℚ)
    (reason : String) : RBState :=
  let d := rbDraw s.rng
  let exit_costs := calculate_transaction_costs cfg |s.position| false d.1
  let gross_pnl := if 0 < s.position then (exit_price - s.entry_price) * s.position
    else (s.entry_price - exit_price) * |s.position|
  let net_pnl := gross_pnl - exit_costs.total
  { s with
    capital := s.capital + net_pnl
    position := 0
    rng := d.2
    trades := s.trades ++ [{
      entry_date := s.entry_date, exit_date := i
      side := if 0 < s.position then "long" else "short"
      entry_price := s.entry_price, exit_price := exit_price
      position_size := |s.position|
      gross_pnl := gross_pnl, spread_cost := 0
      commission := exit_costs.commission, slippage := exit_costs.slippage
      net_pnl := net_pnl, exit_reason := reason }] }

/-- The stop-loss / take-profit checks (lines 190-287): for a long position the
stop is checked first (`low <= stop_loss`), then (`elif`) the target
(`high >= take_profit`); dually for a short. -/
def rbExitChecks (cfg : RBConfig) (s : RBState) (i : ℕ) (b : RBBar) : RBState :=
  if 0 < s.position then
    if b.low ≤ s.stop_loss then rbCloseAt cfg s i s.stop_loss "stop_loss"
    else if s.take_profit ≤ b.high then rbCloseAt cfg s i s.take_profit "take_profit"
    else s
  else if s.position < 0 then
    if s.stop_loss ≤ b.high then rbCloseAt cfg s i s.stop_loss "stop_loss"
    else if b.low ≤ s.take_profit then rbCloseAt cfg s i s.take_profit "take_profit"
    else s
  else s

/-- The entry block (lines 289-337).  Returns the new state and whether the
source `continue`d out of the iteration after appending a plain-capital equity
point (the too-small-lot and insufficient-margin rejections, lines 300-314).
Both rejection branches run with `position == 0`, so the appended point equals
what line 339 would have appended. -/
def rbEntryCheck (cfg : RBConfig) (s : RBState) (i : ℕ) (b : RBBar) : RBState × Bool :=
  if b.signal ≠ 0 ∧ s.position = 0 then
    let atr := b.atrVal
    let risk_amount := s.capital * (2/100)
    let stop_distance := atr * (3/2)
    let raw_size := risk_amount / stop_distance
    let lot_size := calculate_lot_size cfg raw_size
    if lot_size < cfg.min_lot_size then
      ({ s with equity_curve := s.equity_curve ++ [s.capital] }, true)
    else
      let lot_size := max cfg.min_lot_size
        ((pyRound (lot_size / cfg.min_lot_size) : ℚ) * cfg.min_lot_size)
      let position_size := lot_size * cfg.lot_size_units
      let required_margin := calculate_required_margin cfg position_size b.close
      if s.capital * (9/10) < required_margin then
        ({ s with equity_curve := s.equity_curve ++ [s.capital] }, true)
      else
        let d := rbDraw s.rng
        let entry_costs := calculate_transaction_costs cfg position_size true d.1
        let slippage_adj := cfg.slippage_dollars * (if 0 < b.signal then 1 else -1)
        let actual_entry := b.close + slippage_adj
        ({ s with
            position := if 0 < b.signal then position_size else -position_size
            entry_price := actual_entry
            entry_date := i
            stop_loss := if 0 < b.signal then actual_entry - atr * (3/2)
              else actual_entry + atr * (3/2)
            take_profit := if 0 < b.signal then actual_entry + atr * 3
              else actual_entry - atr * 3
            capital := s.capital - entry_costs.total
            rng := d.2 }, false)
  else (s, false)

/-- One iteration of the bar loop of `run_backtest` (lines 146-339) at bar
index `i`. -/
def rbStep (cfg : RBConfig) (s : RBState) (i : ℕ) (b : RBBar) : RBState :=
  if rbStopOutFires cfg s b then rbStopOutStep cfg s i b
  else
    let s1 := rbExitChecks cfg s i b
    let r := rbEntryCheck cfg s1 i b
    let s2 := r.1
    if r.2 then s2
    else
      { s2 with equity_curve := s2.equity_curve ++
          [if s2.position ≠ 0 then s2.capital + (b.close - s2.entry_price) * s2.position
           else s2.capital] }

/-- The initial state of `run_backtest` (lines 136-144): the equity curve starts
as `[initial_capital]`. -/
def rbInit (cfg : RBConfig) (rng : List ℚ) : RBState :=
  { capital := cfg.initial_capital, position := 0, entry_price := 0, entry_date := 0
    stop_loss := 0, take_profit := 0, equity_curve := [cfg.initial_capital]
    trades := [], rng := rng }

/-- The end-of-data forced close (lines 341-365): an open position is closed at
the final close price with `exit_reason = 'end_of_data'`.  The source leaves the
local `position` variable untouched; the appended trade is what matters. -/
def rbEndClose (cfg : RBConfig) (bars : List RBBar) (s : RBState) : RBState :=
  if s.position ≠ 0 then
    let exit_price := (bars.getLast?.map RBBar.close).getD 0
    let d := rbDraw s.rng
    let exit_costs := calculate_transaction_costs cfg |s.position| false d.1
    let gross_pnl := if 0 < s.position then (exit_price - s.entry_price) * s.position
      else (s.entry_price - exit_price) * |s.position|
    let net_pnl := gross_pnl - exit_costs.total
    { s with
      capital := s.capital + net_pnl
      rng := d.2
      trades := s.trades ++ [{
        entry_date := s.entry_date, exit_date := bars.length - 1
        side := if 0 < s.position then "long" else "short"
        entry_price := s.entry_price, exit_price := exit_price
        position_size := |s.position|
        gross_pnl := gross_pnl, spread_cost := 0
        commission := exit_costs.commission, slippage := exit_costs.slippage
        net_pnl := net_pnl, exit_reason := "end_of_data" }] }
  else s

/-- `run_backtest` (lines 122-367): the loop runs over bars `1 .. len-1`
(`for i in range(1, len(data))`), then the forced end-of-data close. -/
def runRB (cfg : RBConfig) (bars : List RBBar) (rng : List ℚ) : RBState :=
  let looped := (((List.range bars.length).zip bars).drop 1).foldl
    (fun s ib => rbStep cfg s ib.1 ib.2) (rbInit cfg rng)
  rbEndClose cfg bars looped

/-! ## TrendFollowingStrategy (`src/src/strategy/trend_following_strategy.py`) -/

/-- Constructor parameters of `TrendFollowingStrategy` (lines 30-37). -/
structure TFParams where
  initial_capital : ℚ
  risk_per_trade : ℚ
deriving Repr, DecidableEq

/-- One row of the strategy dataframe as read by `backtest` (lines 127-135):
OHLC plus the indicator columns (`atr`, `sma_200`, `swing_low`, `swing_high`)
and the signal for the bar (`signals.iloc[i]`; `generate_signals` is indicator
arithmetic over external `ta` columns, so the signal series is an input).
`atr` is `none` for a NaN. -/
structure TFBar where
  close : ℚ
  high : ℚ
  low : ℚ
  atr : Option ℚ
  sma_200 : ℚ
  swing_low : ℚ
  swing_high : ℚ
  signal : ℤ
deriving Repr, DecidableEq

/-- `if pd.isna(atr) or atr <= 0: atr = close * 0.015` (lines 137-138). -/
def TFBar.atrVal (b : TFBar) : ℚ :=
  match b.atr with
  | some a => if a ≤ 0 then b.close * (3/200) else a
  | none => b.close * (3/200)

/-- The `current_trade` dict built at entry (lines 229-235). -/
structure TFOpen where
  entry_date : ℕ
  entry_price : ℚ
  side : String
  size : ℚ
  stop_loss : ℚ
deriving Repr, DecidableEq

/-- A closed-trade dict (entry fields plus `exit_price`, `exit_reason`, `pnl`,
lines 167-171). -/
structure TFTrade where
  entry_date : ℕ
  entry_price : ℚ
  side : String
  size : ℚ
  stop_loss : ℚ
  exit_price : ℚ
  exit_reason : String
  pnl : ℚ
deriving Repr, DecidableEq

/-- The mutable locals of `TrendFollowingStrategy.backtest` (lines 111-119)
plus the two per-bar series.  `lowest_price` starts as `float('inf')`,
modelled as `none`. -/
structure TFState where
  capital : ℚ
  position : ℚ
  entry_price : ℚ
  stop_loss : ℚ
  highest_price : ℚ
  lowest_price : Option ℚ
  current_trade : Option TFOpen
  trades : List TFTrade
  capital_series : List ℚ
  positions_series : List ℚ
deriving Repr, DecidableEq

/-- The effective stop for a long position (lines 145-146):
`max(stop_loss, highest - atr * 2.5)`. -/
def tfEffStopLong (stop_loss highest atr : ℚ) : ℚ :=
  max stop_loss (highest - atr * (5/2))

/-- The effective stop for a short position (lines 180-181):
`min(stop_loss, lowest + atr * 2.5)`. -/
def tfEffStopShort (stop_loss lowest atr : ℚ) : ℚ :=
  min stop_loss (lowest + atr * (5/2))

/-- Close the open position at `exit_price` (the common body of the exit
branches, lines 163-174 and 195-206): realise the P&L into capital, append the
completed trade when `current_trade` is set, flatten the position. -/
def tfCloseAt (s : TFState) (exit_price : ℚ) (reason : String) : TFState :=
  let pnl := if 0 < s.position then (exit_price - s.entry_price) * s.position
    else (s.entry_price - exit_price) * |s.position|
  { s with
    capital := s.capital + pnl
    trades := match s.current_trade with
      | some ct => s.trades ++ [{ entry_date := ct.entry_date, entry_price := ct.entry_price
                                  side := ct.side, size := ct.size, stop_loss := ct.stop_loss
                                  exit_price := exit_price, exit_reason := reason, pnl := pnl }]
      | none => s.trades
    position := 0
    current_trade := none }

/-- The position-management block (lines 140-206): update the trailing anchor,
then check the effective stop, then (elif) the 200-SMA trend reversal. -/
def tfManage (s : TFState) (b : TFBar) (atr : ℚ) : TFState :=
  if 0 < s.position then
    let highest := max s.highest_price b.high
    let trail_stop := highest - atr * (5/2)
    let effective_stop := tfEffStopLong s.stop_loss highest atr
    let s1 := { s with highest_price := highest }
    if b.low ≤ effective_stop then
      tfCloseAt s1 effective_stop (if s.stop_loss < trail_stop then "trailing_stop" else "stop_loss")
    else if b.close < b.sma_200 then tfCloseAt s1 b.close "trend_reversal"
    else s1
  else if s.position < 0 then
    let lowest := match s.lowest_price with
      | none => b.low
      | some l => min l b.low
    let trail_stop := lowest + atr * (5/2)
    let effective_stop := tfEffStopShort s.stop_loss lowest atr
    let s1 := { s with lowest_price := some lowest }
    if effective_stop ≤ b.high then
      tfCloseAt s1 effective_stop (if trail_stop < s.stop_loss then "trailing_stop" else "stop_loss")
    else if b.sma_200 < b.close then tfCloseAt s1 b.close "trend_reversal"
    else s1
  else s

/-- The entry block (lines 208-235).  Note the source assigns `stop_loss`
before testing `risk_per_unit > 0`, so the stop variable changes even when no
position is opened. -/
def tfEntry (p : TFParams) (s : TFState) (i : ℕ) (b : TFBar) (atr : ℚ) : TFState :=
  if s.position = 0 ∧ b.signal ≠ 0 then
    let stop_loss := if b.signal = 1 then min (b.swing_low - atr * (1/2)) (b.close - atr * 3)
      else max (b.swing_high + atr * (1/2)) (b.close + atr * 3)
    let risk_per_unit := if b.signal = 1 then b.close - stop_loss else stop_loss - b.close
    if 0 < risk_per_unit then
      let risk_amount := s.capital * p.risk_per_trade
      let position_size := risk_amount / risk_per_unit
      let max_size := (s.capital * (15/100)) / b.close
      let position_size := min position_size max_size
      let signed := if 0 < b.signal then position_size else -position_size
      { s with
        position := signed
        entry_price := b.close
        highest_price := b.close
        lowest_price := some b.close
        stop_loss := stop_loss
        current_trade := some { entry_date := i, entry_price := b.close
                                side := if 0 < b.signal then "long" else "short"
                                size := |signed|, stop_loss := stop_loss } }
    else { s with stop_loss := stop_loss }
  else s

/-- One iteration of the bar loop of `backtest` (lines 121-239): bars with
index `< 201` only record the flat capital (lines 122-125); otherwise manage,
then enter, then record position and mark-to-market equity (lines 237-239). -/
def tfStep (p : TFParams) (s : TFState) (i : ℕ) (b : TFBar) : TFState :=
  if i < 201 then
    { s with capital_series := s.capital_series ++ [s.capital]
             positions_series := s.positions_series ++ [0] }
  else
    let atr := b.atrVal
    let s1 := tfManage s b atr
    let s2 := tfEntry p s1 i b atr
    { s2 with
      positions_series := s2.positions_series ++ [s2.position]
      capital_series := s2.capital_series ++
        [if s2.position ≠ 0 then s2.capital + (b.close - s2.entry_price) * s2.position
         else s2.capital] }

/-- The initial locals (lines 111-119). -/
def tfInit (p : TFParams) : TFState :=
  { capital := p.initial_capital, position := 0, entry_price := 0, stop_loss := 0
    highest_price := 0, lowest_price := none, current_trade := none
    trades := [], capital_series := [], positions_series := [] }

/-- The bar loop, carrying the bar index explicitly. -/
def tfLoop (p : TFParams) : ℕ → List TFBar → TFState → TFState
  | _, [], s => s
  | i, b :: rest, s => tfLoop p (i + 1) rest (tfStep p s i b)

/-- The end-of-data close (lines 241-254): an open position is realised at the
final close price with `exit_reason = 'end_of_data'`; the source leaves the
loop locals (`position`, `current_trade`) untouched afterwards, and so do we. -/
def tfEndClose (bars : List TFBar) (s : TFState) : TFState :=
  if s.position ≠ 0 then
    let c := (bars.getLast?.map TFBar.close).getD 0
    let pnl := if 0 < s.position then (c - s.entry_price) * s.position
      else (s.entry_price - c) * |s.position|
    { s with
      capital := s.capital + pnl
      trades := match s.current_trade with
        | some ct => s.trades ++ [{ entry_date := ct.entry_date, entry_price := ct.entry_price
                                    side := ct.side, size := ct.size, stop_loss := ct.stop_loss
                                    exit_price := c, exit_reason := "end_of_data", pnl := pnl }]
        | none => s.trades }
  else s

/-- `TrendFollowingStrategy.backtest` (lines 107-256): loop then forced close.
The returned state's `capital` is the `final_capital` handed to
`_calculate_metrics`. -/
def runTF (p : TFParams) (bars : List TFBar) : TFState :=
  tfEndClose bars (tfLoop p 0 bars (tfInit p))

/-! ## WorkingStrategy (`src/src/strategy/working_strategy.py`) -/

/-- Constructor parameters of `WorkingStrategy` (lines 28-41). -/
structure WSParams where
  initial_capital : ℚ
  risk_per_trade : ℚ
  sl_atr_mult : ℚ
  tp_atr_mult : ℚ
  trail_atr_mult : ℚ
deriving Repr, DecidableEq

/-- One dataframe row as read by `generate_signals` and `backtest`
(lines 74-76 and 111-115): OHLC, `atr` (`none` for NaN), the EMA-crossover
flag columns computed at lines 60-67, `ema_55` and `rsi` — indicator columns
are inputs (external `ta` library). -/
structure WSBar where
  close : ℚ
  high : ℚ
  low : ℚ
  atr : Option ℚ
  ema_cross_up : Bool
  ema_cross_down : Bool
  ema_55 : ℚ
  rsi : ℚ
deriving Repr, DecidableEq

/-- `if pd.isna(atr) or atr <= 0: atr = close * 0.01` (lines 117-118). -/
def WSBar.atrVal (b : WSBar) : ℚ :=
  match b.atr with
  | some a => if a ≤ 0 then b.close * (1/100) else a
  | none => b.close * (1/100)

/-- `WorkingStrategy.generate_signals` at one bar (lines 69-88): `0` inside the
60-bar warm-up; otherwise the long rule sets `1` and the (separate, second)
short `if` overwrites with `-1`, so the short condition takes precedence when
both hold. -/
def wsSignal (i : ℕ) (b : WSBar) : ℤ :=
  if i < 60 then 0
  else if b.ema_cross_down ∧ b.close < b.ema_55 ∧ 30 < b.rsi then -1
  else if b.ema_cross_up ∧ b.ema_55 < b.close ∧ b.rsi < 70 then 1
  else 0

/-- The `current_trade` dict built at entry (lines 248-255). -/
structure WSOpen where
  entry_date : ℕ
  entry_price : ℚ
  side : String
  size : ℚ
  stop_loss : ℚ
  take_profit : ℚ
deriving Repr, DecidableEq

/-- A closed trade (entry fields plus `exit_price`, `exit_reason`, `pnl`). -/
structure WSTrade where
  entry_date : ℕ
  entry_price : ℚ
  side : String
  size : ℚ
  stop_loss : ℚ
  take_profit : ℚ
  exit_price : ℚ
  exit_reason : String
  pnl : ℚ
deriving Repr, DecidableEq

/-- The mutable locals of `WorkingStrategy.backtest` (lines 94-103) plus the
per-bar series.  `lowest_price` starts as `float('inf')`, modelled as `none`. -/
structure WSState where
  capital : ℚ
  position : ℚ
  entry_price : ℚ
  stop_loss : ℚ
  take_profit : ℚ
  highest_price : ℚ
  lowest_price : Option ℚ
  current_trade : Option WSOpen
  trades : List WSTrade
  capital_series : List ℚ
  positions_series : List ℚ
deriving Repr, DecidableEq

/-- The effective stop for a long position (lines 125-126):
`max(stop_loss, highest_price - atr * trail_atr_mult)`. -/
def wsEffStopLong (p : WSParams) (stop_loss highest atr : ℚ) : ℚ :=
  max stop_loss (highest - atr * p.trail_atr_mult)

/-- The effective stop for a short position (lines 177-178):
`min(stop_loss, lowest_price + atr * trail_atr_mult)`. -/
def wsEffStopShort (p : WSParams) (stop_loss lowest atr : ℚ) : ℚ :=
  min stop_loss (lowest + atr * p.trail_atr_mult)

/-- The updated trailing anchor of a short position (line 174):
`lowest_price = min(lowest_price, low)`, where the initial `float('inf')`
anchor is `none`. -/
def wsLowest (s : WSState) (b : WSBar) : ℚ :=
  match s.lowest_price with
  | none => b.low
  | some l => min l b.low

/-- Close the open position at `exit_price` (common body of the exit branches,
lines 129-171 and 180-223). -/
def wsCloseAt (s : WSState) (exit_price : ℚ) (reason : String) : WSState :=
  let pnl := if 0 < s.position then (exit_price - s.entry_price) * s.position
    else (s.entry_price - exit_price) * |s.position|
  { s with
    capital := s.capital + pnl
    trades := match s.current_trade with
      | some ct => s.trades ++ [{ entry_date := ct.entry_date, entry_price := ct.entry_price
                                  side := ct.side, size := ct.size, stop_loss := ct.stop_loss
                                  take_profit := ct.take_profit, exit_price := exit_price
                                  exit_reason := reason, pnl := pnl }]
      | none => s.trades
    position := 0
    current_trade := none }

/-- The position-management block (lines 120-223): for a long, the effective
stop is checked first (`low <= effective_stop`), then (`elif`) the take-profit
(`high >= take_profit`), then (`elif`) a signal reversal; dually for a short. -/
def wsManage (p : WSParams) (s : WSState) (b : WSBar) (atr : ℚ) (signal : ℤ) : WSState :=
  if 0 < s.position then
    let highest := max s.highest_price b.high
    let effective_stop := wsEffStopLong p s.stop_loss highest atr
    let s1 := { s with highest_price := highest }
    if b.low ≤ effective_stop then wsCloseAt s1 effective_stop "stop_loss"
    else if s.take_profit ≤ b.high then wsCloseAt s1 s.take_profit "take_profit"
    else if signal = -1 then wsCloseAt s1 b.close "signal_reversal"
    else s1
  else if s.position < 0 then
    let lowest := wsLowest s b
    let effective_stop := wsEffStopShort p s.stop_loss lowest atr
    let s1 := { s with lowest_price := some lowest }
    if effective_stop ≤ b.high then wsCloseAt s1 effective_stop "stop_loss"
    else if b.low ≤ s.take_profit then wsCloseAt s1 s.take_profit "take_profit"
    else if signal = 1 then wsCloseAt s1 b.close "signal_reversal"
    else s1
  else s

/-- The entry block (lines 225-255).  `stop_loss` and `take_profit` are
assigned before the `risk_per_unit > 0` test, so they change even when no
position is opened. -/
def wsEntry (p : WSParams) (s : WSState) (i : ℕ) (b : WSBar) (atr : ℚ) (signal : ℤ) : WSState :=
  if s.position = 0 ∧ signal ≠ 0 then
    let risk_amount := s.capital * p.risk_per_trade
    let stop_loss := if signal = 1 then b.close - atr * p.sl_atr_mult
      else b.close + atr * p.sl_atr_mult
    let take_profit := if signal = 1 then b.close + atr * p.tp_atr_mult
      else b.close - atr * p.tp_atr_mult
    let risk_per_unit := if signal = 1 then b.close - stop_loss else stop_loss - b.close
    if 0 < risk_per_unit then
      let position_size := risk_amount / risk_per_unit
      let max_size := (s.capital * (1/10)) / b.close
      let position_size := min position_size max_size
      let signed := if 0 < signal then position_size else -position_size
      { s with
        position := signed
        entry_price := b.close
        highest_price := b.close
        lowest_price := some b.close
        stop_loss := stop_loss
        take_profit := take_profit
        current_trade := some { entry_date := i, entry_price := b.close
                                side := if 0 < signal then "long" else "short"
                                size := |signed|, stop_loss := stop_loss
                                take_profit := take_profit } }
    else { s with stop_loss := stop_loss, take_profit := take_profit }
  else s

/-- One iteration of the bar loop of `WorkingStrategy.backtest`
(lines 105-259): warm-up bars (`i < 60`) only record flat capital; otherwise
manage, then enter, then record position and mark-to-market equity. -/
def wsStep (p : WSParams) (s : WSState) (i : ℕ) (b : WSBar) : WSState :=
  if i < 60 then
    { s with capital_series := s.capital_series ++ [s.capital]
             positions_series := s.positions_series ++ [0] }
  else
    let atr := b.atrVal
    let signal := wsSignal i b
    let s1 := wsManage p s b atr signal
    let s2 := wsEntry p s1 i b atr signal
    { s2 with
      positions_series := s2.positions_series ++ [s2.position]
      capital_series := s2.capital_series ++
        [if s2.position ≠ 0 then s2.capital + (b.close - s2.entry_price) * s2.position
         else s2.capital] }

/-- The initial locals (lines 94-103). -/
def wsInit (p : WSParams) : WSState :=
  { capital := p.initial_capital, position := 0, entry_price := 0, stop_loss := 0
    take_profit := 0, highest_price := 0, lowest_price := none, current_trade := none
    trades := [], capital_series := [], positions_series := [] }

/-- The bar loop, carrying the bar index. -/
def wsLoop (p : WSParams) : ℕ → List WSBar → WSState → WSState
  | _, [], s => s
  | i, b :: rest, s => wsLoop p (i + 1) rest (wsStep p s i b)

/-- The end-of-data close (lines 261-274). -/
def wsEndClose (bars : List WSBar) (s : WSState) : WSState :=
  if s.position ≠ 0 then
    let c := (bars.getLast?.map WSBar.close).getD 0
    let pnl := if 0 < s.position then (c - s.entry_price) * s.position
      else (s.entry_price - c) * |s.position|
    { s with
      capital := s.capital + pnl
      trades := match s.current_trade with
        | some ct => s.trades ++ [{ entry_date := ct.entry_date, entry_price := ct.entry_price
                                    side := ct.side, size := ct.size, stop_loss := ct.stop_loss
                                    take_profit := ct.take_profit, exit_price := c
                                    exit_reason := "end_of_data", pnl := pnl }]
        | none => s.trades }
  else s

/-- `WorkingStrategy.backtest` (lines 90-276). -/
def runWS (p : WSParams) (bars : List WSBar) : WSState :=
  wsEndClose bars (wsLoop p 0 bars (wsInit p))

/-! ## PropFirmChallenge (`src/scripts/prop_firm_challenge.py`) -/

/-- Constructor parameters of `PropFirmChallenge` (lines 34-46). -/
structure PFConfig where
  account_size : ℚ
  profit_target : ℚ
  max_daily_loss : ℚ
  max_total_drawdown : ℚ
  min_trading_days : ℕ
  time_limit_days : ℕ
deriving Repr, DecidableEq

/-- One dataframe row as read by `run_challenge` (lines 92-97 and 141-144):
OHLC plus the indicator columns computed at lines 53-68 (`atr` with `none` for
NaN, `ema_55`, `rsi`, and the EMA 5/21 crossover flags) — indicator
computation is the external feed. -/
structure PFBar where
  close : ℚ
  high : ℚ
  low : ℚ
  atr : Option ℚ
  ema_55 : ℚ
  rsi : ℚ
  cross_up : Bool
  cross_down : Bool
deriving Repr, DecidableEq

/-- `atr = data['atr'].iloc[i] if not pd.isna(...) else close * 0.01` (line 95). -/
def PFBar.atrVal (b : PFBar) : ℚ :=
  match b.atr with
  | some a => a
  | none => b.close * (1/100)

/-- A trade record `{'pnl': ..., 'reason': ...}` (line 111). -/
structure PFTrade where
  pnl : ℚ
  reason : String
deriving Repr, DecidableEq

/-- The challenge state (lines 70-88): the loop locals, the trade and daily
P&L lists, and the terminal flags. -/
structure PFState where
  capital : ℚ
  highest_capital : ℚ
  position : ℚ
  entry_price : ℚ
  stop_loss : ℚ
  take_profit : ℚ
  highest : ℚ
  trades : List PFTrade
  daily_pnl : List ℚ
  trading_days : ℕ
  passed : Bool
  failed : Bool
  fail_reason : Option String
  day_count : ℕ
deriving Repr, DecidableEq

/-- The effective stop for the long position (lines 104-105):
`max(stop_loss, highest - atr * 1.5)`. -/
def pfEffStop (stop_loss highest atr : ℚ) : ℚ :=
  max stop_loss (highest - atr * (3/2))

/-- The position-management phase of one challenge-loop iteration
(lines 101-137): trailing-stop / take-profit management for an open long,
plain stop / take-profit for a short. -/
def pfManagePos (s : PFState) (b : PFBar) (atr : ℚ) : PFState :=
  if 0 < s.position then
    let highest := max s.highest b.high
    let eff_stop := pfEffStop s.stop_loss highest atr
    let s0 := { s with highest := highest }
    if b.low ≤ eff_stop then
      let pnl := (eff_stop - s0.entry_price) * s0.position
      { s0 with capital := s0.capital + pnl, trades := s0.trades ++ [⟨pnl, "stop"⟩]
                position := 0, trading_days := s0.trading_days + 1 }
    else if s.take_profit ≤ b.high then
      let pnl := (s.take_profit - s0.entry_price) * s0.position
      { s0 with capital := s0.capital + pnl, trades := s0.trades ++ [⟨pnl, "take_profit"⟩]
                position := 0, trading_days := s0.trading_days + 1 }
    else s0
  else if s.position < 0 then
    if s.stop_loss ≤ b.high then
      let pnl := (s.entry_price - s.stop_loss) * |s.position|
      { s with capital := s.capital + pnl, trades := s.trades ++ [⟨pnl, "stop"⟩]
               position := 0, trading_days := s.trading_days + 1 }
    else if b.low ≤ s.take_profit then
      let pnl := (s.entry_price - s.take_profit) * |s.position|
      { s with capital := s.capital + pnl, trades := s.trades ++ [⟨pnl, "take_profit"⟩]
               position := 0, trading_days := s.trading_days + 1 }
    else s
  else s

/-- The entry phase of one challenge-loop iteration (lines 139-160): the
inline EMA-crossover signal, then stop/target placement and risk-based
sizing. -/
def pfEntryCh (risk_per_trade : ℚ) (s1 : PFState) (b : PFBar) (atr : ℚ) : PFState :=
  if s1.position = 0 ∧ s1.failed = false then
    let signal : ℤ :=
      if b.cross_up ∧ b.ema_55 < b.close ∧ b.rsi < 70 then 1
      else if b.cross_down ∧ b.close < b.ema_55 ∧ 30 < b.rsi then -1
      else 0
    if signal ≠ 0 then
      let stop_loss := if signal = 1 then b.close - atr * (3/2) else b.close + atr * (3/2)
      let take_profit := if signal = 1 then b.close + atr * 3 else b.close - atr * 3
      let risk := if signal = 1 then b.close - stop_loss else stop_loss - b.close
      if 0 < risk then
        let size := (s1.capital * risk_per_trade) / risk
        { s1 with position := if 0 < signal then size else -size
                  entry_price := b.close, highest := b.close
                  stop_loss := stop_loss, take_profit := take_profit }
      else { s1 with stop_loss := stop_loss, take_profit := take_profit }
    else s1
  else s1

/-- The position-management and entry phase of one challenge-loop iteration
(lines 101-160). -/
def pfManageEntry (cfg : PFConfig) (risk_per_trade : ℚ) (s : PFState) (b : PFBar) : PFState :=
  pfEntryCh risk_per_trade (pfManagePos s b b.atrVal) b b.atrVal

/-- The end-of-iteration challenge checks (lines 162-186): record the daily
P&L (realised capital moves only), then in order: the daily-loss limit, the
peak update and total-drawdown limit (both on realised `capital`), and the
profit-target/minimum-trading-days pass check.  `day_start_capital` is the
realised capital at the top of the iteration and `day_count0` the previous
day count. -/
def pfChecks (cfg : PFConfig) (s2 : PFState) (day_start_capital : ℚ)
    (day_count0 : ℕ) : PFState :=
  let day_pnl := s2.capital - day_start_capital
  let s3 := { s2 with daily_pnl := s2.daily_pnl ++ [day_pnl], day_count := day_count0 + 1 }
  if day_pnl < -(cfg.account_size * cfg.max_daily_loss) then
    { s3 with failed := true, fail_reason := some "daily_loss" }
  else
    let highest_capital := max s3.highest_capital s3.capital
    let s4 := { s3 with highest_capital := highest_capital }
    let drawdown := (highest_capital - s4.capital) / cfg.account_size
    if cfg.max_total_drawdown < drawdown then
      { s4 with failed := true, fail_reason := some "drawdown" }
    else
      let profit := (s4.capital - cfg.account_size) / cfg.account_size
      if cfg.profit_target ≤ profit ∧ cfg.min_trading_days ≤ s4.trading_days then
        { s4 with passed := true }
      else s4

/-- One iteration of the challenge loop (lines 90-186).  The source `break`s
out of the loop once `failed` or `passed` is set; that early exit is modelled
by making terminal states absorbing. -/
def pfStep (cfg : PFConfig) (risk_per_trade : ℚ) (s : PFState) (b : PFBar) : PFState :=
  if s.failed ∨ s.passed then s
  else pfChecks cfg (pfManageEntry cfg risk_per_trade s b) s.capital s.day_count

/-- The initial challenge state (lines 70-88). -/
def pfInit (cfg : PFConfig) : PFState :=
  { capital := cfg.account_size, highest_capital := cfg.account_size, position := 0
    entry_price := 0, stop_loss := 0, take_profit := 0, highest := 0
    trades := [], daily_pnl := [], trading_days := 0
    passed := false, failed := false, fail_reason := none, day_count := 0 }

/-- The end-of-data close of `run_challenge` (lines 188-197): an open position
is realised at `close.iloc[min(66 + time_limit_days - 1, len(data) - 1)]` with
reason `'end'`. -/
def pfEndClose (cfg : PFConfig) (bars : List PFBar) (s : PFState) : PFState :=
  if s.position ≠ 0 then
    let idx := min (66 + cfg.time_limit_days - 1) (bars.length - 1)
    let c := ((bars.get? idx).map PFBar.close).getD 0
    let pnl := if 0 < s.position then (c - s.entry_price) * s.position
      else (s.entry_price - c) * |s.position|
    { s with capital := s.capital + pnl, trades := s.trades ++ [⟨pnl, "end"⟩]
             trading_days := s.trading_days + 1 }
  else s

/-- `PropFirmChallenge.run_challenge` (lines 48-214): the loop runs over bars
`66 .. min(66 + time_limit_days, len) - 1` (`for i in range(66, min(66 +
self.time_limit_days, len(data)))`), then the forced close.  The returned
state carries the `passed`/`failed` flags of the result dict. -/
def runPF (cfg : PFConfig) (risk_per_trade : ℚ) (bars : List PFBar) : PFState :=
  pfEndClose cfg bars
    (((bars.drop 66).take cfg.time_limit_days).foldl (pfStep cfg risk_per_trade) (pfInit cfg))

/-! ## LiveSignalGenerator (`src/scripts/live_signals.py`) -/

/-- One dataframe row as read by `get_signal` (lines 139-151): the close plus
the indicator columns produced at lines 109-129 (external `ta` computation). -/
structure LSBar where
  close : ℚ
  atr : ℚ
  ema_3 : ℚ
  ema_8 : ℚ
  rsi : ℚ
  macd : ℚ
  macd_signal : ℚ
deriving Repr, DecidableEq

/-- The vote list built at lines 153-169, in source order (EMA cross, MACD
cross, RSI extreme): pairs of (signal type, direction). -/
def lsVotes (prev cur : LSBar) : List (String × String) :=
  (if cur.ema_8 < cur.ema_3 ∧ prev.ema_3 ≤ prev.ema_8 then [("EMA_CROSS", "LONG")]
   else if cur.ema_3 < cur.ema_8 ∧ prev.ema_8 ≤ prev.ema_3 then [("EMA_CROSS", "SHORT")]
   else []) ++
  (if cur.macd_signal < cur.macd ∧ prev.macd ≤ prev.macd_signal then [("MACD_CROSS", "LONG")]
   else if cur.macd < cur.macd_signal ∧ prev.macd_signal ≤ prev.macd then [("MACD_CROSS", "SHORT")]
   else []) ++
  (if cur.rsi < 20 ∧ prev.close < cur.close then [("RSI_OVERSOLD", "LONG")]
   else if 80 < cur.rsi ∧ cur.close < prev.close then [("RSI_OVERBOUGHT", "SHORT")]
   else [])

/-- The signal dict returned by `get_signal` (lines 194-212); the `indicators`
sub-dict and the timestamp are presentation fields and omitted.  The source's
`rr_ratio` key is the `risk_reward` field here. -/
structure LSSignal where
  direction : String
  entry : ℚ
  stop_loss : ℚ
  take_profit : ℚ
  atr : ℚ
  risk_usd : ℚ
  reward_usd : ℚ
  risk_reward : ℚ
  signal_types : List String
deriving Repr, DecidableEq

/-- Build the returned dict for a chosen direction (lines 187-212).
`ATR_SL = 0.8`, `ATR_TP = 1.5` (lines 29-30); `round(x, 2)` is `pyRound2`. -/
def lsMakeSignal (direction : String) (signal_types : List String) (cur : LSBar) : LSSignal :=
  let sl := if direction = "LONG" then cur.close - cur.atr * (4/5) else cur.close + cur.atr * (4/5)
  let tp := if direction = "LONG" then cur.close + cur.atr * (3/2) else cur.close - cur.atr * (3/2)
  { direction := direction
    entry := pyRound2 cur.close
    stop_loss := pyRound2 sl
    take_profit := pyRound2 tp
    atr := pyRound2 cur.atr
    risk_usd := pyRound2 |cur.close - sl|
    reward_usd := pyRound2 |tp - cur.close|
    risk_reward := pyRound2 (|tp - cur.close| / |cur.close - sl|)
    signal_types := signal_types }

/-- `LiveSignalGenerator.get_signal` (lines 131-212): `None` for fewer than 30
rows; otherwise votes are collected for the last bar and the direction is
decided by majority (`len(longs) > len(shorts)` picks LONG, the reverse picks
SHORT, an exact tie returns `None`); an empty vote list returns `None`. -/
def get_signal (data : List LSBar) : Option LSSignal :=
  if data.length < 30 then none
  else
    match data.dropLast.getLast?, data.getLast? with
    | some prev, some cur =>
      let signals := lsVotes prev cur
      if signals = [] then none
      else
        let longs := signals.filter fun v => v.2 = "LONG"
        let shorts := signals.filter fun v => v.2 = "SHORT"
        if shorts.length < longs.length then
          some (lsMakeSignal "LONG" (longs.map Prod.fst) cur)
        else if longs.length < shorts.length then
          some (lsMakeSignal "SHORT" (shorts.map Prod.fst) cur)
        else none
    | _, _ => none

/-! ## Concrete inputs used by counterexamples and witnesses -/

/-- A warm-up filler bar for `WorkingStrategy` (contents irrelevant: bars with
index `< 60` are skipped). -/
def wsDummy : WSBar :=
  { close := 1, high := 1, low := 1, atr := some 1, ema_cross_up := false
    ema_cross_down := false, ema_55 := 0, rsi := 0 }

/-- Parameters realising the specification's 5-bar scenario: `atr = 1` with
`sl_atr_mult = 5` and `tp_atr_mult = 8` gives `stop = entry - 5 = 95` and
`target = entry + 8 = 108`; the huge `trail_atr_mult` keeps the trailing stop
far below the fixed stop. -/
def wsScenarioParams : WSParams :=
  { initial_capital := 10000, risk_per_trade := 2/100, sl_atr_mult := 5
    tp_atr_mult := 8, trail_atr_mult := 1000 }

/-- A point bar (`high = low = close`) of the 5-bar scenario, with no entry
signal. -/
def wsPoint (c : ℚ) : WSBar :=
  { close := c, high := c, low := c, atr := some 1, ema_cross_up := false
    ema_cross_down := false, ema_55 := 0, rsi := 0 }

/-- The scenario bar sequence: 60 warm-up bars, then
`close = [100, 105, 98, 110, 95]` with a long signal on the first bar
(crossover up, close above EMA 55, RSI below 70). -/
def wsScenarioBars : List WSBar :=
  List.replicate 60 wsDummy ++
    [{ close := 100, high := 100, low := 100, atr := some 1, ema_cross_up := true
       ema_cross_down := false, ema_55 := 50, rsi := 50 },
     wsPoint 105, wsPoint 98, wsPoint 110, wsPoint 95]

/-- A point bar for the realistic backtester with a given signal. -/
def rbPoint (c : ℚ) (sig : ℤ) : RBBar :=
  { close := c, high := c, low := c, atr := some 1, signal := sig }

/-- Three bars for the same-bar re-entry run: a long entry at bar 1 (close
100), then a bar gapping to 98 that hits the stop (98.55) and carries a fresh
long signal. -/
def rbReentryBars : List RBBar := [rbPoint 100 0, rbPoint 100 1, rbPoint 98 1]

/-- Two bars (one processed) for the nondeterminism and equity-identity runs:
a long entry at bar 1. -/
def rbEntryBars : List RBBar := [rbPoint 100 0, rbPoint 100 1]

/-- The challenge configuration of the specification scenario
(`profit_target = 0.10`, `max_drawdown = 0.10`, capital 10000), with a 3-bar
time limit. -/
def pfScenarioCfg : PFConfig :=
  { account_size := 10000, profit_target := 1/10, max_daily_loss := 5/100
    max_total_drawdown := 1/10, min_trading_days := 4, time_limit_days := 3 }

/-- A warm-up filler bar for the challenge (bars before index 66 are never
processed). -/
def pfDummy : PFBar :=
  { close := 1, high := 1, low := 1, atr := some 1, ema_55 := 0, rsi := 0
    cross_up := false, cross_down := false }

/-- The challenge entry bar: crossover up at close 100 with `atr = 1`, giving
`stop = 98.5`, `target = 103`. -/
def pfEntryBar : PFBar :=
  { close := 100, high := 100, low := 100, atr := some 1, ema_55 := 50, rsi := 50
    cross_up := true, cross_down := false }

/-- A signal-free challenge point bar with a chosen ATR. -/
def pfPoint (c a : ℚ) : PFBar :=
  { close := c, high := c, low := c, atr := some a, ema_55 := 0, rsi := 0
    cross_up := false, cross_down := false }

/-- The drawdown-scenario bars: entry at 100, a dip to 98.7 (staying above the
98.5 stop, but with mark-to-market equity 8960 at 800 units — a 10.4%
drawdown), then a recovery to 100. -/
def pfDrawdownBars : List PFBar :=
  List.replicate 66 pfDummy ++ [pfEntryBar, pfPoint (987/10) 1, pfPoint 100 1]

/-- Bars for the trailing-stop counterexample: entry at 100, then a quiet bar
with ATR ½ (trailing stop 99.25), then a bar whose ATR jumps to 10, dropping
the trailing stop back to the fixed 98.5. -/
def pfAtrJumpBar (a : ℚ) : PFBar :=
  { close := 996/10, high := 100, low := 996/10, atr := some a, ema_55 := 0, rsi := 0
    cross_up := false, cross_down := false }

/-- The ATR-jump bar sequence. -/
def pfTrailBars : List PFBar :=
  List.replicate 66 pfDummy ++ [pfEntryBar, pfAtrJumpBar (1/2), pfAtrJumpBar 10]

/-- A filler bar for the live-signal data (only the last two rows matter). -/
def lsDummy : LSBar :=
  { close := 100, atr := 1, ema_3 := 1, ema_8 := 1, rsi := 50, macd := 0, macd_signal := 0 }

/-- The second-to-last bar of the conflicting-votes input. -/
def lsPrevBar : LSBar :=
  { close := 100, atr := 2, ema_3 := 1, ema_8 := 2, rsi := 50, macd := 0, macd_signal := 1 }

/-- The last bar: the EMA and MACD crossovers both vote LONG while the RSI
rule (RSI 85 with a falling close) votes SHORT. -/
def lsCurBar : LSBar :=
  { close := 99, atr := 2, ema_3 := 3, ema_8 := 2, rsi := 85, macd := 2, macd_signal := 1 }

/-- Thirty bars whose last two produce the conflicting 2-LONG / 1-SHORT vote. -/
def lsConflictData : List LSBar := List.replicate 28 lsDummy ++ [lsPrevBar, lsCurBar]

/-- The state of the re-entry run after its entry bar (bar 1): a 133-unit long
at 100.05 with stop 98.55. -/
def rbStateAfterBar1 : RBState :=
  rbStep rbDefaults (rbInit rbDefaults [1, 1, 1, 1]) 1 (rbPoint 100 1)

/-- A concrete open long used to instantiate the stop-priority theorem:
1 unit at 100 with stop 95 and target 101. -/
def wsPriorityState : WSState :=
  { capital := 10000, position := 1, entry_price := 100, stop_loss := 95
    take_profit := 101, highest_price := 100, lowest_price := none
    current_trade := some { entry_date := 60, entry_price := 100, side := "long"
                            size := 1, stop_loss := 95, take_profit := 101 }
    trades := [], capital_series := [], positions_series := [] }

/-- A wide bar whose range contains both the stop (95) and the target (101). -/
def wsPriorityBar : WSBar :=
  { close := 90, high := 200, low := 90, atr := some 1, ema_cross_up := false
    ema_cross_down := false, ema_55 := 0, rsi := 0 }

/-- A one-bar trend-following input (inside the 201-bar warm-up). -/
def tfOneBar : List TFBar :=
  [{ close := 100, high := 100, low := 100, atr := some 1, sma_200 := 0
     swing_low := 0, swing_high := 0, signal := 0 }]

/-- The challenge state after the entry bar of the drawdown scenario: an
800-unit long at 100 with stop 98.5 and peak capital 10000. -/
def pfAfterEntry : PFState :=
  pfStep pfScenarioCfg (12/100) (pfInit pfScenarioCfg) pfEntryBar

/-- The challenge state after the quiet low-ATR bar of the ATR-jump scenario
(the position survives the bar; the trailing stop computed there was 99.25). -/
def pfAfterQuietBar : PFState :=
  pfStep pfScenarioCfg (12/100) pfAfterEntry (pfAtrJumpBar (1/2))

/-- The bookkeeping invariant of the trend-following bar loop: the realised
capital always equals the initial capital plus the summed P&L of the recorded
closed trades, and an open position always has its `current_trade` dict set. -/
def TFInv (init : ℚ) (s : TFState) : Prop :=
  s.capital = init + ((s.trades.map TFTrade.pnl).sum) ∧
  (s.position ≠ 0 → s.current_trade.isSome = true)

/-- The mark-to-market equity of a trend-following state at a close price
(the value recorded into the capital series at lines 238-239). -/
def tfEquityVal (s : TFState) (c : ℚ) : ℚ :=
  if s.position ≠ 0 then s.capital + (c - s.entry_price) * s.position else s.capital

/-!
Batteries marks the `Rat` field operations `@[irreducible]`; re-allow unfolding
them so that `decide` can evaluate the embedded programs on concrete inputs.
-/
attribute [local semireducible] Rat.add Rat.mul Rat.sub Rat.inv

/-! ## Claim C1 — degenerate sizing in `PositionSizer.calculate_position_size` -/

/-- Claim C1: the claim (and spec §4.2/§7) says the sizer must fail closed,
returning a zero position size when `|entry_price − stop_loss_price| ≤ 0`.
The code has no such guard: `units = risk_amount / price_risk` divides by zero
whenever the entry price equals the stop-loss price, and Python raises
`ZeroDivisionError` (re-raised by the `except` block after logging).  This
theorem evaluates the embedded code on every such input: the call always
errors, for every configuration, capital and price. -/
theorem position_sizer_zero_risk_raises :
    ∀ (cfg : SizerConfig) (capital p : ℚ) (tp : Option ℚ),
      calculate_position_size cfg capital p p tp = Except.error "ZeroDivisionError" := by
  intro cfg capital p tp
  simp [calculate_position_size]

/-! ## Claim C9 — profit-factor zero/empty policy -/

/-- Claim C9, counterexample: the claim says `profit_factor = 0` when
`gross_loss = 0` and `gross_profit = 0`, uniformly across all metric
calculators.  On the one-trade list `[0]` (a single break-even trade:
`gross_profit = gross_loss = 0`), `RealisticBacktester._calculate_metrics`
returns `float('inf')` while the trend-following calculator returns `0` — the
claimed value `0` fails for the realistic backtester and the policy is not
uniform. -/
theorem profit_factor_zero_case_counterexample :
    profitFactorRB [0] = PFValue.posInf ∧ profitFactorTF [0] = PFValue.fin 0 ∧
      profitFactorRB [0] ≠ profitFactorTF [0] := by
  refine ⟨by decide, by decide, by decide⟩

/-- Claim C9, amended: the trend-following/working and base-strategy
calculators implement exactly the spec's policy (`gp/gl` when `gl > 0`, `+∞`
when `gl = 0 < gp`, else `0`); the realistic backtester agrees whenever the
trade list is empty, `gross_loss > 0`, or `gross_profit > 0`, but returns `+∞`
(not `0`) on any nonempty list with `gross_loss = 0` — including the
all-break-even case `gross_profit = 0`. -/
theorem profit_factor_policies :
    (∀ l : List ℚ, profitFactorTF l = profitFactorSpec l) ∧
    (∀ l : List ℚ, profitFactorBase l = profitFactorSpec l) ∧
    (∀ l : List ℚ, (l = [] ∨ 0 < grossLoss l ∨ 0 < grossProfit l) →
      profitFactorRB l = profitFactorSpec l) ∧
    (∀ l : List ℚ, l ≠ [] → ¬ 0 < grossLoss l → profitFactorRB l = PFValue.posInf) := by
  refine ⟨?_, ?_, ?_, ?_⟩
  · intro l
    by_cases h : l = []
    · subst h; decide
    · simp [profitFactorTF, profitFactorSpec, h]
  · intro l; rfl
  · intro l h
    rcases h with h | h | h
    · subst h; decide
    · by_cases hl : l = []
      · exfalso; subst hl; revert h; decide
      · simp [profitFactorRB, profitFactorSpec, hl, h]
    · by_cases hl : l = []
      · exfalso; subst hl; revert h; decide
      · by_cases hg : 0 < grossLoss l
        · simp [profitFactorRB, profitFactorSpec, hl, hg]
        · simp [profitFactorRB, profitFactorSpec, hl, hg, h]
  · intro l hl hg
    simp [profitFactorRB, hl, hg]

/-- Claim C9, witness: the realistic calculator agrees with the spec policy on
the concrete one-trade list `[1]` (which has `gross_profit = 1 > 0`). -/
theorem profit_factor_policies_witness :
    profitFactorRB [1] = profitFactorSpec [1] :=
  profit_factor_policies.2.2.1 [1] (Or.inr (Or.inr (by decide)))

/-! ## Claim C10 — the stop-out frame effect -/

/-- Claim C10: whenever the forced-liquidation condition of
`RealisticBacktester.run_backtest` (lines 157-188) holds on a bar, that bar's
processing stops (`continue`): no equity-curve point is appended, no entry is
evaluated, and only the capital (increased by the stop-out trade's net P&L),
the position (zeroed) and the trade log (one appended `stop_out` trade) change
— `entry_price`, `entry_date`, `stop_loss` and `take_profit` are untouched.
The slippage draw consumed by the exit-cost computation is the head of the
modelled stream. -/
theorem rb_stop_out_frame (cfg : RBConfig) (s : RBState) (i : ℕ) (b : RBBar)
    (h : rbStopOutFires cfg s b) :
    (rbStep cfg s i b).equity_curve = s.equity_curve ∧
    (rbStep cfg s i b).position = 0 ∧
    (rbStep cfg s i b).entry_price = s.entry_price ∧
    (rbStep cfg s i b).entry_date = s.entry_date ∧
    (rbStep cfg s i b).stop_loss = s.stop_loss ∧
    (rbStep cfg s i b).take_profit = s.take_profit ∧
    (rbStep cfg s i b).capital = s.capital + ((b.close - s.entry_price) * s.position -
      (calculate_transaction_costs cfg s.position false (rbDraw s.rng).1).total) ∧
    (rbStep cfg s i b).trades = s.trades ++ [{
      entry_date := s.entry_date, exit_date := i
      side := if 0 < s.position then "long" else "short"
      entry_price := s.entry_price, exit_price := b.close
      position_size := |s.position|
      gross_pnl := (b.close - s.entry_price) * s.position, spread_cost := 0
      commission := (calculate_transaction_costs cfg s.position false (rbDraw s.rng).1).commission
      slippage := (calculate_transaction_costs cfg s.position false (rbDraw s.rng).1).slippage
      net_pnl := (b.close - s.entry_price) * s.position -
        (calculate_transaction_costs cfg s.position false (rbDraw s.rng).1).total
      exit_reason := "stop_out" }] := by
  simp only [rbStep, if_pos h, rbStopOutStep]
  and_intros <;> first | rfl | trivial

/-- Claim C10, witness: the frame theorem applied to a concrete stopped-out
state (an open 100-unit long with zero realised capital, so the margin level is
`0 < 0.2`). -/
theorem rb_stop_out_frame_witness :
    (rbStep rbDefaults
        { capital := 0, position := 100, entry_price := 100, entry_date := 1
          stop_loss := 95, take_profit := 110, equity_curve := [0], trades := [], rng := [1] }
        2 (rbPoint 100 0)).equity_curve = [0] ∧
    (rbStep rbDefaults
        { capital := 0, position := 100, entry_price := 100, entry_date := 1
          stop_loss := 95, take_profit := 110, equity_curve := [0], trades := [], rng := [1] }
        2 (rbPoint 100 0)).position = 0 :=
  let s : RBState :=
    { capital := 0, position := 100, entry_price := 100, entry_date := 1
      stop_loss := 95, take_profit := 110, equity_curve := [0], trades := [], rng := [1] }
  have h := rb_stop_out_frame rbDefaults s 2 (rbPoint 100 0) (by decide)
  ⟨h.1, h.2.1⟩

/-! ## Claim C2 — determinism of the simulation engine -/

/-- Claim C2, counterexample: the claim says two runs on the same bars,
signals and configuration produce identical closed-trade lists and equity
curves.  `calculate_transaction_costs` multiplies the slippage cost by
`np.random.uniform(0.5, 1.5)` (realistic_backtester.py line 113), so repeated
runs draw different slippage.  With the draws made explicit, the same
two-bar input run under draw streams `[1/2, 1/2]` and `[3/2, 3/2]` — both
inside the support `[0.5, 1.5]` of the uniform distribution — yields different
per-trade net P&L and a different equity curve. -/
theorem rb_backtest_not_deterministic :
    ((1:ℚ)/2 ∈ Set.Icc (1/2 : ℚ) (3/2) ∧ (3:ℚ)/2 ∈ Set.Icc (1/2 : ℚ) (3/2)) ∧
    (runRB rbDefaults rbEntryBars [1/2, 1/2]).trades.map RBTrade.net_pnl ≠
      (runRB rbDefaults rbEntryBars [3/2, 3/2]).trades.map RBTrade.net_pnl ∧
    (runRB rbDefaults rbEntryBars [1/2, 1/2]).equity_curve ≠
      (runRB rbDefaults rbEntryBars [3/2, 3/2]).equity_curve := by
  refine ⟨⟨⟨by norm_num, by norm_num⟩, ⟨by norm_num, by norm_num⟩⟩, by decide, by decide⟩

/-- Claim C2, amended: the engine is deterministic only conditional on the
slippage draws.  Modelling the `np.random.uniform(0.5, 1.5)` draws as an
explicit input stream, the whole backtest is a pure function of (bars with
signals, configuration, draw stream): runs with the same draws coincide
exactly; moreover the draw enters the costs only through the slippage term —
the spread and commission components are draw-independent. -/
theorem rb_backtest_deterministic_given_draws :
    (∀ (cfg : RBConfig) (bars : List RBBar) (rng rng' : List ℚ), rng = rng' →
      runRB cfg bars rng = runRB cfg bars rng') ∧
    (∀ (cfg : RBConfig) (ps : ℚ) (e : Bool) (u : ℚ),
      (calculate_transaction_costs cfg ps e u).spread_cost =
        (calculate_transaction_costs cfg ps e 1).spread_cost ∧
      (calculate_transaction_costs cfg ps e u).commission =
        (calculate_transaction_costs cfg ps e 1).commission ∧
      (calculate_transaction_costs cfg ps e u).slippage =
        |ps| * cfg.slippage_dollars * u) := by
  constructor
  · intro cfg bars rng rng' h
    rw [h]
  · intro cfg ps e u
    refine ⟨rfl, rfl, rfl⟩

/-- Claim C2, witness: the determinism theorem applied at the concrete two-bar
input and the concrete stream `[1, 1]`. -/
theorem rb_backtest_deterministic_given_draws_witness :
    runRB rbDefaults rbEntryBars [1, 1] = runRB rbDefaults rbEntryBars [1, 1] :=
  rb_backtest_deterministic_given_draws.1 rbDefaults rbEntryBars [1, 1] [1, 1] rfl

/-! ## Claim C3 — exit-before-entry and same-bar re-entry -/

/-- Claim C3, counterexample: the claim says a position closed during a bar is
never replaced within the same bar.  In the concrete three-bar run, the long
opened at bar 1 is stopped out of at bar 2 (`exit_reason = stop_loss`,
`exit_date = 2`) and a new position is opened on that same bar 2
(`entry_date = 2` of the second trade, closed at end of data): the stop-loss
exit at lines 192-214 of realistic_backtester.py sets `position = 0` and falls
through (no `continue`) to the entry block at line 290, which re-enters
immediately. -/
theorem rb_same_bar_reentry_counterexample :
    ((runRB rbDefaults rbReentryBars [1, 1, 1, 1]).trades.map fun t =>
      (t.entry_date, t.exit_date, t.exit_reason)) =
      [(1, 2, "stop_loss"), (2, 2, "end_of_data")] := by
  decide

/-- Claim C3, amended: exit checks do run before entry checks, but same-bar
re-entry is possible.  Universally: when no stop-out fires, a long position's
stop is hit (`low ≤ stop_loss`), the bar carries a nonzero signal, and the
entry block's lot-size and margin checks pass on the post-exit capital, the
bar ends with a `stop_loss` trade appended **and** a fresh position opened on
that same bar (`entry_date = i`).  Only the stop-out exit `continue`s past the
entry block. -/
theorem rb_exit_then_same_bar_reentry (cfg : RBConfig) (s : RBState) (i : ℕ) (b : RBBar)
    (hso : ¬ rbStopOutFires cfg s b) (hpos : 0 < s.position) (hstop : b.low ≤ s.stop_loss)
    (hsig : b.signal ≠ 0)
    (hml : 0 < cfg.min_lot_size) (hlu : 0 < cfg.lot_size_units)
    (hlot : ¬ calculate_lot_size cfg
      (((rbCloseAt cfg s i s.stop_loss "stop_loss").capital * (2/100)) / (b.atrVal * (3/2))) <
      cfg.min_lot_size)
    (hmargin : ¬ (rbCloseAt cfg s i s.stop_loss "stop_loss").capital * (9/10) <
      calculate_required_margin cfg
        ((max cfg.min_lot_size ((pyRound ((calculate_lot_size cfg
          (((rbCloseAt cfg s i s.stop_loss "stop_loss").capital * (2/100)) /
            (b.atrVal * (3/2)))) / cfg.min_lot_size) : ℚ) * cfg.min_lot_size)) *
          cfg.lot_size_units) b.close) :
    (rbStep cfg s i b).position ≠ 0 ∧
    (rbStep cfg s i b).entry_date = i ∧
    (rbStep cfg s i b).trades.map RBTrade.exit_reason =
      s.trades.map RBTrade.exit_reason ++ ["stop_loss"] := by
  have hx : rbExitChecks cfg s i b = rbCloseAt cfg s i s.stop_loss "stop_loss" := by
    unfold rbExitChecks
    rw [if_pos hpos, if_pos hstop]
  have hc : b.signal ≠ 0 ∧ (rbCloseAt cfg s i s.stop_loss "stop_loss").position = 0 :=
    ⟨hsig, rfl⟩
  have hpossize : 0 < (max cfg.min_lot_size ((pyRound ((calculate_lot_size cfg
      (((rbCloseAt cfg s i s.stop_loss "stop_loss").capital * (2/100)) /
        (b.atrVal * (3/2)))) / cfg.min_lot_size) : ℚ) * cfg.min_lot_size)) *
      cfg.lot_size_units :=
    mul_pos (lt_max_of_lt_left hml) hlu
  simp only [rbStep, if_neg hso, hx, rbEntryCheck, if_pos hc, if_neg hlot, if_neg hmargin]
  refine ⟨?_, rfl, ?_⟩
  · by_cases hbs : 0 < b.signal
    · simp only [if_pos hbs]
      exact ne_of_gt hpossize
    · simp only [if_neg hbs]
      exact neg_ne_zero.mpr (ne_of_gt hpossize)
  · simp [rbCloseAt]

/-- Claim C3, witness: the re-entry theorem applied to the concrete state
after bar 1 of the re-entry run, at bar 2 (gap to 98, stop 98.55, fresh long
signal). -/
theorem rb_exit_then_same_bar_reentry_witness :
    (rbStep rbDefaults rbStateAfterBar1 2 (rbPoint 98 1)).position ≠ 0 ∧
    (rbStep rbDefaults rbStateAfterBar1 2 (rbPoint 98 1)).entry_date = 2 ∧
    (rbStep rbDefaults rbStateAfterBar1 2 (rbPoint 98 1)).trades.map RBTrade.exit_reason =
      rbStateAfterBar1.trades.map RBTrade.exit_reason ++ ["stop_loss"] :=
  rb_exit_then_same_bar_reentry rbDefaults rbStateAfterBar1 2 (rbPoint 98 1)
    (by decide) (by decide) (by decide) (by decide) (by decide) (by decide)
    (by decide) (by decide)

/-! ## Claim C4 — trailing-stop monotonicity -/

/-- Claim C4, counterexample: the claim says the effective stop of an open
LONG position is non-decreasing bar over bar for *every* ATR series.  The
trailing stop is recomputed each bar from the *current* ATR
(`trail = highest - atr * 1.5`, prop_firm_challenge.py lines 104-105), so a
rising ATR widens it.  Concretely, in the challenge run the position entered
at 100 (fixed stop 98.5) is still open on two successive bars; the effective
stop the simulator computes on the quiet bar (ATR ½) is 99.25, and on the next
bar (ATR jumps to 10) it falls back to 98.5 — the stop loosened while the
position stayed open. -/
theorem trailing_stop_not_monotone_counterexample :
    0 < pfAfterEntry.position ∧ 0 < pfAfterQuietBar.position ∧
    pfEffStop pfAfterQuietBar.stop_loss (max pfAfterQuietBar.highest (pfAtrJumpBar 10).high)
        (pfAtrJumpBar 10).atrVal <
      pfEffStop pfAfterEntry.stop_loss (max pfAfterEntry.highest (pfAtrJumpBar (1/2)).high)
        (pfAtrJumpBar (1/2)).atrVal := by
  refine ⟨by decide, by decide, by decide⟩

/-- Claim C4, amended: the effective stop can only tighten while the position
is open *provided the ATR does not increase*: for a LONG position the
effective stop `max(fixed, anchor − mult·atr)` is monotone in the
(non-decreasing) anchor and antitone in the ATR, and dually for SHORT
(`min(fixed, anchor + mult·atr)`).  The three conjuncts cover the challenge
long stop (mult 1.5) and the trend-following long and short stops (mult 2.5);
with a rising ATR the monotonicity fails (see the counterexample). -/
theorem trailing_stop_monotone_of_atr_nonincreasing :
    (∀ sl h₁ h₂ a₁ a₂ : ℚ, h₁ ≤ h₂ → a₂ ≤ a₁ →
      pfEffStop sl h₁ a₁ ≤ pfEffStop sl h₂ a₂) ∧
    (∀ sl h₁ h₂ a₁ a₂ : ℚ, h₁ ≤ h₂ → a₂ ≤ a₁ →
      tfEffStopLong sl h₁ a₁ ≤ tfEffStopLong sl h₂ a₂) ∧
    (∀ sl l₁ l₂ a₁ a₂ : ℚ, l₂ ≤ l₁ → a₂ ≤ a₁ →
      tfEffStopShort sl l₂ a₂ ≤ tfEffStopShort sl l₁ a₁) := by
  refine ⟨?_, ?_, ?_⟩
  · intro sl h₁ h₂ a₁ a₂ hh ha
    exact max_le_max le_rfl (by linarith)
  · intro sl h₁ h₂ a₁ a₂ hh ha
    exact max_le_max le_rfl (by linarith)
  · intro sl l₁ l₂ a₁ a₂ hl ha
    exact min_le_min le_rfl (by linarith)

/-- Claim C4, witness: the monotonicity theorem at a concrete instance — a
fixed stop of 90, anchor staying at 100, ATR shrinking from 1 to ½. -/
theorem trailing_stop_monotone_witness :
    pfEffStop 90 100 1 ≤ pfEffStop 90 100 (1/2) :=
  trailing_stop_monotone_of_atr_nonincreasing.1 90 100 100 1 (1/2) le_rfl (by norm_num)

/-! ## Claim C7 — challenge drawdown failure timing and basis -/

/-- Claim C7, counterexample: the claim says the evaluator must report FAILED
at the first bar at which `(peak − capital including unrealized) /
starting_capital` exceeds `max_drawdown`, and specifically that an equity path
touching 8,900 on a 10,000 peak must fail.  In the concrete drawdown run
(target 10%, max drawdown 10%, capital 10,000), the open 800-unit long marks
to 8,960 on the dip bar — an (unrealized-inclusive) drawdown of 10.4% > 10% —
yet the run ends with `failed = false` and `passed = false`: the check at
prop_firm_challenge.py lines 172-180 uses realised `capital` only, which never
moves during the dip. -/
theorem pf_unrealized_drawdown_not_failed_counterexample :
    (runPF pfScenarioCfg (12/100) pfDrawdownBars).failed = false ∧
    (runPF pfScenarioCfg (12/100) pfDrawdownBars).passed = false ∧
    pfScenarioCfg.max_total_drawdown <
      (pfAfterEntry.highest_capital -
        (pfAfterEntry.capital +
          ((pfPoint (987/10) 1).close - pfAfterEntry.entry_price) * pfAfterEntry.position)) /
        pfScenarioCfg.account_size := by
  refine ⟨by decide, by decide, by decide⟩

/-- The challenge management phase never touches the peak-capital tracker or
the terminal flags. -/
theorem pfManagePos_frame (s : PFState) (b : PFBar) (atr : ℚ) :
    (pfManagePos s b atr).highest_capital = s.highest_capital ∧
    (pfManagePos s b atr).failed = s.failed ∧
    (pfManagePos s b atr).passed = s.passed := by
  unfold pfManagePos
  dsimp only
  split_ifs <;> exact ⟨rfl, rfl, rfl⟩

/-- The challenge entry phase never touches the peak-capital tracker or the
terminal flags. -/
theorem pfEntryCh_frame (r : ℚ) (s1 : PFState) (b : PFBar) (atr : ℚ) :
    (pfEntryCh r s1 b atr).highest_capital = s1.highest_capital ∧
    (pfEntryCh r s1 b atr).failed = s1.failed ∧
    (pfEntryCh r s1 b atr).passed = s1.passed := by
  unfold pfEntryCh
  dsimp only
  split_ifs <;> exact ⟨rfl, rfl, rfl⟩

/-- Claim C7, amended: the evaluator fails at the first breaching bar (the
terminal state is absorbing, so nothing after the breach is processed), but
the breach test uses realised capital only: after a non-terminal step the
`failed` flag is set exactly when the day's realised loss exceeds the daily
limit or `(max(peak, realised capital) − realised capital) / starting_capital`
exceeds `max_drawdown` — unrealized P&L of an open position never enters the
test. -/
theorem pf_drawdown_failure_realized_only :
    (∀ (cfg : PFConfig) (r : ℚ) (s : PFState) (b : PFBar), s.failed = true →
      pfStep cfg r s b = s) ∧
    (∀ (cfg : PFConfig) (r : ℚ) (s : PFState) (b : PFBar),
      s.failed = false → s.passed = false →
      ((pfStep cfg r s b).failed = true ↔
        (pfManageEntry cfg r s b).capital - s.capital <
            -(cfg.account_size * cfg.max_daily_loss) ∨
          cfg.max_total_drawdown <
            (max s.highest_capital (pfManageEntry cfg r s b).capital -
              (pfManageEntry cfg r s b).capital) / cfg.account_size)) := by
  constructor
  · intro cfg r s b h
    simp [pfStep, h]
  · intro cfg r s b hf hp
    have hterm : ¬ (s.failed ∨ s.passed) := by simp [hf, hp]
    have hhc : (pfManageEntry cfg r s b).highest_capital = s.highest_capital :=
      (pfEntryCh_frame r (pfManagePos s b b.atrVal) b b.atrVal).1.trans
        (pfManagePos_frame s b b.atrVal).1
    have hfail : (pfManageEntry cfg r s b).failed = s.failed :=
      (pfEntryCh_frame r (pfManagePos s b b.atrVal) b b.atrVal).2.1.trans
        (pfManagePos_frame s b b.atrVal).2.1
    simp only [pfStep, if_neg hterm, pfChecks]
    split_ifs with h1 h2 h3 <;>
      simp_all [hhc, hfail]

/-- Claim C7, witness: the failure characterisation applied to the initial
challenge state and a signal-free bar. -/
theorem pf_drawdown_failure_realized_only_witness :
    (pfStep pfScenarioCfg (12/100) (pfInit pfScenarioCfg) pfDummy).failed = true ↔
      (pfManageEntry pfScenarioCfg (12/100) (pfInit pfScenarioCfg) pfDummy).capital -
          (pfInit pfScenarioCfg).capital <
          -(pfScenarioCfg.account_size * pfScenarioCfg.max_daily_loss) ∨
        pfScenarioCfg.max_total_drawdown <
          (max (pfInit pfScenarioCfg).highest_capital
              (pfManageEntry pfScenarioCfg (12/100) (pfInit pfScenarioCfg) pfDummy).capital -
            (pfManageEntry pfScenarioCfg (12/100) (pfInit pfScenarioCfg) pfDummy).capital) /
            pfScenarioCfg.account_size :=
  pf_drawdown_failure_realized_only.2 pfScenarioCfg (12/100) (pfInit pfScenarioCfg)
    pfDummy rfl rfl

/-! ## Claim C8 — conflicting signal votes -/

/-- Claim C8, counterexample: the claim says that whenever at least one LONG
vote and at least one SHORT vote are present on the same bar, `get_signal`
returns `None`.  On the concrete 30-row input whose last bar has both EMA and
MACD crossing up (two LONG votes) while the RSI rule votes SHORT (RSI 85 with
a falling close), the generator resolves the conflict by majority and returns
a LONG signal (live_signals.py lines 174-185, its own comment: "majority vote
if conflicting"). -/
theorem ls_conflicting_votes_majority_counterexample :
    ((lsVotes lsPrevBar lsCurBar).filter fun v => v.2 = "LONG").length = 2 ∧
    ((lsVotes lsPrevBar lsCurBar).filter fun v => v.2 = "SHORT").length = 1 ∧
    (get_signal lsConflictData).map LSSignal.direction = some "LONG" := by
  refine ⟨by decide, by decide, by decide⟩

/-- Claim C8, amended: conflicting votes cancel to `None` only on an exact
tie of LONG and SHORT vote counts (including the no-votes case); otherwise the
majority direction wins.  Full characterisation: for any input of at least 30
rows, the returned direction is LONG when the LONG votes of the last two rows
outnumber the SHORT votes, SHORT in the opposite case, and `None` on equal
counts. -/
theorem ls_majority_vote_characterisation (data : List LSBar) (prev cur : LSBar)
    (hlen : 30 ≤ data.length)
    (hprev : data.dropLast.getLast? = some prev) (hcur : data.getLast? = some cur) :
    (get_signal data).map LSSignal.direction =
      (if ((lsVotes prev cur).filter fun v => v.2 = "SHORT").length <
          ((lsVotes prev cur).filter fun v => v.2 = "LONG").length then some "LONG"
       else if ((lsVotes prev cur).filter fun v => v.2 = "LONG").length <
          ((lsVotes prev cur).filter fun v => v.2 = "SHORT").length then some "SHORT"
       else none) := by
  have hnotlt : ¬ data.length < 30 := not_lt.mpr hlen
  unfold get_signal
  rw [if_neg hnotlt, hprev, hcur]
  dsimp only
  by_cases hempty : lsVotes prev cur = []
  · simp [hempty]
  · rw [if_neg hempty]
    split_ifs with h1 h2 <;> simp [lsMakeSignal]

/-- Claim C8, witness: the characterisation applied to the concrete
conflicting-votes input (where it yields LONG by 2 votes to 1). -/
theorem ls_majority_vote_characterisation_witness :
    (get_signal lsConflictData).map LSSignal.direction =
      (if ((lsVotes lsPrevBar lsCurBar).filter fun v => v.2 = "SHORT").length <
          ((lsVotes lsPrevBar lsCurBar).filter fun v => v.2 = "LONG").length then some "LONG"
       else if ((lsVotes lsPrevBar lsCurBar).filter fun v => v.2 = "LONG").length <
          ((lsVotes lsPrevBar lsCurBar).filter fun v => v.2 = "SHORT").length then some "SHORT"
       else none) :=
  ls_majority_vote_characterisation lsConflictData lsPrevBar lsCurBar
    (by decide) (by decide) (by decide)

/-! ## Claim C5 — stop-loss priority over take-profit, and the 5-bar scenario -/

/-- Claim C5: when both the effective stop and the take-profit level lie
inside a bar's `[low, high]` range while a position is open, the exit is at
the stop with `exit_reason = stop_loss` — the stop branch is checked first and
the take-profit sits in an `elif` — in `WorkingStrategy.backtest` (long and
short) and in `RealisticBacktester.run_backtest` (long and short, whose
effective stop is the fixed stop).  And on the concrete 5-bar scenario
`close = [100, 105, 98, 110, 95]` with a long entered at 100, stop 95 and
target 108, bar 2's low (98) does not breach the stop, bar 3's high (110)
reaches the target, and the single recorded trade exits at 108 with
`exit_reason = take_profit` and `gross_pnl = (108 − 100) × size = 80` at
size 10. -/
theorem stop_priority_over_take_profit :
    (∀ (p : WSParams) (s : WSState) (b : WSBar) (atr : ℚ) (sig : ℤ),
      0 < s.position →
      b.low ≤ wsEffStopLong p s.stop_loss (max s.highest_price b.high) atr →
      wsEffStopLong p s.stop_loss (max s.highest_price b.high) atr ≤ b.high →
      b.low ≤ s.take_profit → s.take_profit ≤ b.high →
      wsManage p s b atr sig =
        wsCloseAt { s with highest_price := max s.highest_price b.high }
          (wsEffStopLong p s.stop_loss (max s.highest_price b.high) atr) "stop_loss") ∧
    (∀ (p : WSParams) (s : WSState) (b : WSBar) (atr : ℚ) (sig : ℤ),
      s.position < 0 →
      b.low ≤ wsEffStopShort p s.stop_loss (wsLowest s b) atr →
      wsEffStopShort p s.stop_loss (wsLowest s b) atr ≤ b.high →
      b.low ≤ s.take_profit → s.take_profit ≤ b.high →
      wsManage p s b atr sig =
        wsCloseAt { s with lowest_price := some (wsLowest s b) }
          (wsEffStopShort p s.stop_loss (wsLowest s b) atr) "stop_loss") ∧
    (∀ (cfg : RBConfig) (s : RBState) (i : ℕ) (b : RBBar),
      0 < s.position →
      b.low ≤ s.stop_loss → s.stop_loss ≤ b.high →
      b.low ≤ s.take_profit → s.take_profit ≤ b.high →
      rbExitChecks cfg s i b = rbCloseAt cfg s i s.stop_loss "stop_loss") ∧
    (∀ (cfg : RBConfig) (s : RBState) (i : ℕ) (b : RBBar),
      s.position < 0 →
      b.low ≤ s.stop_loss → s.stop_loss ≤ b.high →
      b.low ≤ s.take_profit → s.take_profit ≤ b.high →
      rbExitChecks cfg s i b = rbCloseAt cfg s i s.stop_loss "stop_loss") ∧
    ((runWS wsScenarioParams wsScenarioBars).trades.map fun t =>
      (t.entry_price, t.size, t.exit_price, t.exit_reason, t.pnl)) =
      [(100, 10, 108, "take_profit", 80)] := by
  refine ⟨?_, ?_, ?_, ?_, by decide⟩
  · intro p s b atr sig hpos h1 h2 h3 h4
    unfold wsManage
    dsimp only
    rw [if_pos hpos, if_pos h1]
  · intro p s b atr sig hpos h1 h2 h3 h4
    unfold wsManage
    dsimp only
    rw [if_neg (by exact absurd · (not_lt.mpr hpos.le)), if_pos hpos, if_pos h2]
  · intro cfg s i b hpos h1 h2 h3 h4
    unfold rbExitChecks
    rw [if_pos hpos, if_pos h1]
  · intro cfg s i b hpos h1 h2 h3 h4
    unfold rbExitChecks
    rw [if_neg (by exact absurd · (not_lt.mpr hpos.le)), if_pos hpos, if_pos h2]

/-- Claim C5, witness: the long-side priority statement applied to a concrete
open long (stop 95, target 101) on a bar spanning `[90, 200]` — both levels in
range, exit at the 95 stop with reason `stop_loss`. -/
theorem stop_priority_over_take_profit_witness :
    wsManage wsScenarioParams wsPriorityState wsPriorityBar 1 0 =
      wsCloseAt { wsPriorityState with
          highest_price := max wsPriorityState.highest_price wsPriorityBar.high }
        (wsEffStopLong wsScenarioParams wsPriorityState.stop_loss
          (max wsPriorityState.highest_price wsPriorityBar.high) 1) "stop_loss" :=
  stop_priority_over_take_profit.1 wsScenarioParams wsPriorityState wsPriorityBar 1 0
    (by decide) (by decide) (by decide) (by decide) (by decide)

/-! ## Claim C6 — end-of-data closure and final equity -/

/-- Claim C6, counterexample: the claim says the final equity-curve value
equals starting capital plus the sum of `net_pnl` over all closed trades.  On
the concrete two-bar realistic-backtester run the open long is duly force-
closed with `exit_reason = end_of_data`, but the recorded `net_pnl` omits the
entry costs (deducted from capital at entry, line 337) and the final equity
point (appended at line 339, before the forced close) omits the final exit
costs — the equality fails: the last equity value is 9942.145 while
`starting_capital + Σ net_pnl` is 9982.045. -/
theorem rb_final_equity_mismatch_counterexample :
    ((runRB rbDefaults rbEntryBars [1, 1]).trades.map RBTrade.exit_reason = ["end_of_data"]) ∧
    (runRB rbDefaults rbEntryBars [1, 1]).equity_curve.getLast? ≠
      some (rbDefaults.initial_capital +
        ((runRB rbDefaults rbEntryBars [1, 1]).trades.map RBTrade.net_pnl).sum) := by
  refine ⟨by decide, by decide⟩

/-- Closing a trade preserves the bookkeeping invariant: the realised P&L is
added both to capital and (through the appended trade) to the P&L sum. -/
theorem tfCloseAt_inv (init : ℚ) (s : TFState) (c : ℚ) (r : String)
    (h : TFInv init s) (hpos : s.position ≠ 0) : TFInv init (tfCloseAt s c r) := by
  obtain ⟨hc, hct⟩ := h
  obtain ⟨ct, hsome⟩ := Option.isSome_iff_exists.mp (hct hpos)
  constructor
  · show (tfCloseAt s c r).capital = _
    simp only [tfCloseAt, hsome, List.map_append, List.map_cons, List.map_nil,
      List.sum_append, List.sum_cons, List.sum_nil, add_zero]
    rw [hc]; ring
  · intro hp
    exact absurd rfl hp

/-- The management phase preserves the bookkeeping invariant. -/
theorem tfManage_inv (init : ℚ) (s : TFState) (b : TFBar) (atr : ℚ)
    (h : TFInv init s) : TFInv init (tfManage s b atr) := by
  unfold tfManage
  dsimp only
  by_cases hp : 0 < s.position
  · have h1 : TFInv init { s with highest_price := max s.highest_price b.high } := h
    have hp1 : ({ s with highest_price := max s.highest_price b.high } : TFState).position ≠ 0 :=
      ne_of_gt hp
    rw [if_pos hp]
    split_ifs <;> first
      | exact tfCloseAt_inv init _ _ _ h1 hp1
      | exact h1
  · rw [if_neg hp]
    by_cases hq : s.position < 0
    · have h2 : TFInv init { s with lowest_price := some (match s.lowest_price with
        | none => b.low
        | some l => min l b.low) } := h
      have hq2 : ({ s with lowest_price := some (match s.lowest_price with
        | none => b.low
        | some l => min l b.low) } : TFState).position ≠ 0 := ne_of_lt hq
      rw [if_pos hq]
      split_ifs <;> first
        | exact tfCloseAt_inv init _ _ _ h2 hq2
        | exact h2
    · rw [if_neg hq]
      exact h

/-- The entry phase preserves the bookkeeping invariant (it moves no money and
records the `current_trade` dict whenever it opens a position). -/
theorem tfEntry_inv (init : ℚ) (p : TFParams) (s : TFState) (i : ℕ) (b : TFBar) (atr : ℚ)
    (h : TFInv init s) : TFInv init (tfEntry p s i b atr) := by
  obtain ⟨hc, hct⟩ := h
  unfold tfEntry
  dsimp only
  split_ifs <;> first
    | exact ⟨hc, fun _ => rfl⟩
    | exact ⟨hc, hct⟩

/-- One bar-loop step preserves the bookkeeping invariant. -/
theorem tfStep_inv (init : ℚ) (p : TFParams) (s : TFState) (i : ℕ) (b : TFBar)
    (h : TFInv init s) : TFInv init (tfStep p s i b) := by
  unfold tfStep
  split_ifs with hw
  · exact h
  · exact tfEntry_inv init p _ i b _ (tfManage_inv init s b _ h)

/-- The whole bar loop preserves the bookkeeping invariant. -/
theorem tfLoop_inv (init : ℚ) (p : TFParams) :
    ∀ (bars : List TFBar) (i : ℕ) (s : TFState), TFInv init s →
      TFInv init (tfLoop p i bars s) := by
  intro bars
  induction bars with
  | nil => intro i s h; exact h
  | cons b rest ih => intro i s h; exact ih (i + 1) _ (tfStep_inv init p s i b h)

/-- The end-of-data close preserves the bookkeeping equation for capital. -/
theorem tfEndClose_capital (init : ℚ) (bars : List TFBar) (s : TFState)
    (h : TFInv init s) :
    (tfEndClose bars s).capital =
      init + (((tfEndClose bars s).trades.map TFTrade.pnl).sum) := by
  obtain ⟨hc, hct⟩ := h
  unfold tfEndClose
  dsimp only
  split_ifs with hp hgt <;> first
    | exact hc
    | (obtain ⟨ct, hsome⟩ := Option.isSome_iff_exists.mp (hct hp)
       simp only [hsome, List.map_append, List.map_cons, List.map_nil,
         List.sum_append, List.sum_cons, List.sum_nil, add_zero]
       rw [hc]; ring)

/-- Each processed bar appends exactly one capital-series point, equal to the
mark-to-market equity of the post-step state at the bar's close (for warm-up
bars the position is flat, so the point is the flat capital).  The index
hypothesis says an open position can only exist once past the warm-up. -/
theorem tfStep_series_last (p : TFParams) (s : TFState) (i : ℕ) (b : TFBar)
    (hpi : s.position ≠ 0 → 201 ≤ i) :
    (tfStep p s i b).capital_series.getLast? =
      some (tfEquityVal (tfStep p s i b) b.close) := by
  unfold tfStep
  split_ifs with hw
  · have hzero : s.position = 0 := by
      by_contra hnz
      exact absurd (hpi hnz) (by omega)
    simp [tfEquityVal, hzero, List.getLast?_concat]
  · simp [tfEquityVal, List.getLast?_concat]

/-- The warm-up index invariant is preserved by each step. -/
theorem tfStep_pos_index (p : TFParams) (s : TFState) (i : ℕ) (b : TFBar)
    (hpi : s.position ≠ 0 → 201 ≤ i) :
    (tfStep p s i b).position ≠ 0 → 201 ≤ i + 1 := by
  intro hnz
  by_cases hw : i < 201
  · exfalso
    have hsame : (tfStep p s i b).position = s.position := by
      unfold tfStep
      rw [if_pos hw]
    rw [hsame] at hnz
    exact absurd (hpi hnz) (by omega)
  · omega

/-- After processing a nonempty bar list, the last capital-series point equals
the mark-to-market equity of the final loop state at the last bar's close. -/
theorem tfLoop_series_last (p : TFParams) :
    ∀ (bars : List TFBar) (i : ℕ) (s : TFState), bars ≠ [] →
      (s.position ≠ 0 → 201 ≤ i) →
      (tfLoop p i bars s).capital_series.getLast? =
        some (tfEquityVal (tfLoop p i bars s) ((bars.getLast?.map TFBar.close).getD 0)) := by
  intro bars
  induction bars with
  | nil => intro i s hne _; exact absurd rfl hne
  | cons b rest ih =>
    intro i s _ hpi
    cases rest with
    | nil =>
      simp only [tfLoop, List.getLast?_singleton, Option.map_some, Option.getD_some]
      exact tfStep_series_last p s i b hpi
    | cons b2 rest2 =>
      simp only [tfLoop, List.getLast?_cons_cons]
      exact ih (i + 1) (tfStep p s i b) (by simp) (tfStep_pos_index p s i b hpi)

/-- The forced end-of-data close leaves the capital series untouched and
realises exactly the open position's mark-to-market value at the final close
price. -/
theorem tfEndClose_series_capital (bars : List TFBar) (s : TFState) :
    (tfEndClose bars s).capital_series = s.capital_series ∧
    (tfEndClose bars s).capital =
      tfEquityVal s ((bars.getLast?.map TFBar.close).getD 0) := by
  unfold tfEndClose tfEquityVal
  dsimp only
  split_ifs with hp hgt
  · exact ⟨rfl, rfl⟩
  · refine ⟨rfl, ?_⟩
    have habs : |s.position| = -s.position := abs_of_neg (lt_of_le_of_ne (not_lt.mp hgt) hp)
    rw [habs]; ring
  · exact ⟨rfl, rfl⟩

/-- Claim C6, amended: in the cost-free trend-following engine the claim
holds in full: for every nonempty input, after the loop and the forced
`end_of_data` close the final capital-series value equals the final realised
capital, which equals the starting capital plus the summed P&L of all closed
trades (zero unrealized exposure).  In the cost-modelling realistic
backtester the same identity fails (see the counterexample): its recorded
`net_pnl` omits entry costs and the final equity point predates the forced
close's exit costs. -/
theorem tf_end_of_data_closure (p : TFParams) (bars : List TFBar) (hne : bars ≠ []) :
    (runTF p bars).capital_series.getLast? = some (runTF p bars).capital ∧
    (runTF p bars).capital =
      p.initial_capital + (((runTF p bars).trades.map TFTrade.pnl).sum) := by
  have hinv0 : TFInv p.initial_capital (tfInit p) := by
    constructor
    · simp [tfInit, TFInv]
    · intro h; exact absurd rfl h
  have hinv := tfLoop_inv p.initial_capital p bars 0 (tfInit p) hinv0
  have hlast := tfLoop_series_last p bars 0 (tfInit p) hne (fun h => absurd rfl h)
  have hend := tfEndClose_series_capital bars (tfLoop p 0 bars (tfInit p))
  constructor
  · unfold runTF
    rw [hend.1, hlast, hend.2]
  · exact tfEndClose_capital p.initial_capital bars _ hinv

/-- Claim C6, witness: the closure theorem applied to a concrete one-bar
input (a warm-up bar: flat throughout, final equity 10000 = 10000 + 0). -/
theorem tf_end_of_data_closure_witness :
    (runTF ⟨10000, 2/100⟩ tfOneBar).capital_series.getLast? =
      some (runTF ⟨10000, 2/100⟩ tfOneBar).capital ∧
    (runTF ⟨10000, 2/100⟩ tfOneBar).capital =
      (10000 : ℚ) + (((runTF ⟨10000, 2/100⟩ tfOneBar).trades.map TFTrade.pnl).sum) :=
  tf_end_of_data_closure ⟨10000, 2/100⟩ tfOneBar (by decide)
